import Mathlib

/-!
Shallow embedding of the core logic of the `twitter_bookmark_analytics`
repository: `utils/data_logger.py` (CSV loading, technology classification)
and `utils/visualizations.py` (chart builders, frequent-word extraction).

Modelling conventions:
* Python strings are Lean `String`s; `len`, `lower`, `strip`, `split`,
  `isdigit`, `isascii` and substring tests are modelled character-wise over
  `String.data` (ASCII case folding / ASCII whitespace, which agree with
  Python on all inputs occurring in this code base).
* Python exceptions become an explicit `PyErr` type and fallible code
  returns `Except PyErr _`.
* External black boxes (the `pd.to_datetime` string parser, the regex
  preprocessing, the MeCab segmenter, the NLTK stop-word corpus, the
  plotly figure construction) are parameters of the modelled functions,
  exactly at the call boundaries where the source invokes them.
-/

namespace TwitterBookmarkAnalytics

/-- Python scalar values occurring in the analysed code paths. -/
inductive PyVal where
  | str (s : String)
  | none
  | int (n : Int)
  | bool (b : Bool)
deriving DecidableEq, Repr

/-- Python exception classes raised or caught by the modelled code.
`parserError` and `emptyData` model `pd.errors.ParserError` /
`pd.errors.EmptyDataError` (both subclasses of `ValueError` in pandas);
`otherError` models any exception class not named by the source. -/
inductive PyErr where
  | fileNotFound (msg : String)
  | emptyData (msg : String)
  | parserError (msg : String)
  | typeError (msg : String)
  | valueError (msg : String)
  | resampleError (msg : String)
  | lookupError (msg : String)
  | otherError (msg : String)
deriving DecidableEq, Repr

/-- Python `str(e)` : the message carried by an exception. -/
def PyErr.msg : PyErr → String
  | .fileNotFound m => m
  | .emptyData m => m
  | .parserError m => m
  | .typeError m => m
  | .valueError m => m
  | .resampleError m => m
  | .lookupError m => m
  | .otherError m => m

/-- Python `pd.isna` on the modelled scalars: only the null value is NA. -/
def pdIsNa : PyVal → Bool
  | PyVal.none => true
  | _ => false

/-- Python `pd.notna`. -/
def pdNotna (v : PyVal) : Bool := !(pdIsNa v)

/-- Python `str(v)` on the modelled scalars. -/
def pyStr : PyVal → String
  | .str s => s
  | .none => "None"
  | .int n => toString n
  | .bool b => if b then "True" else "False"

/-- Python `s.lower()` (ASCII case folding; identity on the Japanese
keywords occurring in the source). -/
def pyLower (s : String) : String := String.mk (s.data.map Char.toLower)

/-- Python substring test `a in b` on strings. -/
def isSubstrOf (a b : String) : Bool := decide (a.data <:+: b.data)

/-- Python `sep.join(l)`. -/
def pyJoin (sep : String) : List String → String
  | [] => ""
  | s :: rest =>
    match rest with
    | [] => s
    | _ :: _ => s ++ sep ++ pyJoin sep rest

/-- Python `s.strip()` : remove leading and trailing whitespace. -/
def pyStrip (s : String) : String :=
  String.mk (((s.data.dropWhile Char.isWhitespace).reverse.dropWhile Char.isWhitespace).reverse)

/-- Python `s.split()` with no separator: split on whitespace runs,
dropping empty pieces. -/
def pySplitWs (s : String) : List String :=
  ((s.data.splitOnP Char.isWhitespace).map (fun cs => String.mk cs)).filter (fun w => w != "")

/-- Python `w.isdigit()` : non-empty and all characters digits. -/
def pyIsDigit (w : String) : Bool := !w.data.isEmpty && w.data.all Char.isDigit

/-- Python `c.isascii()` : code point below 128. -/
def pyIsAscii (c : Char) : Bool := c.toNat < 128

/-! ### `utils/data_logger.py` -/

/-- `REQUIRED_COLUMNS` from `data_logger.py`. -/
def REQUIRED_COLUMNS : List String := ["tweeted_at", "screen_name", "full_text"]

/-- `TECH_KEYWORDS` from `data_logger.py`. -/
def TECH_KEYWORDS : List String :=
  ["python", "javascript", "programming", "code", "developer", "tech",
   "cybersecurity", "security", "it", "software", "web", "api", "data",
   "github", "docker", "cloud", "ai", "ml", "database", "dev", "coding",
   "プログラミング", "エンジニア", "コード", "セキュリティ", "機械学習",
   "クラウド", "クラウドコンピューティング", "キャリア", "セキュリティ対策"]

/-- The state of the CSV resource handed to `load_data`: missing file,
empty file, or a parsed table (header row plus data rows; a cell is
`Option.none` when the field is empty or absent, which `pd.read_csv`
represents as NaN). -/
inductive FileRes where
  | notFound
  | emptyFile
  | content (header : List String) (rows : List (List (Option String)))

/-- Model of `pd.read_csv(file_path, nrows=0)` : reads the header only. -/
def readHeader : FileRes → Except PyErr (List String)
  | .notFound => .error (.fileNotFound "ファイルが見つかりません")
  | .emptyFile => .error (.emptyData "No columns to parse from file")
  | .content header _ => .ok header

/-- First phase of `load_data` (lines 68-85): read the header alone and
raise `pd.errors.ParserError` when a required column is missing. -/
def checkRequiredHeader (f : FileRes) : Except PyErr Unit :=
  match readHeader f with
  | .error e => .error e
  | .ok header =>
    let missing := REQUIRED_COLUMNS.filter (fun c => !header.contains c)
    if missing.isEmpty then .ok ()
    else .error (.parserError ("必須カラムが不足しています: " ++ pyJoin ", " missing))

/-- Column extraction `df[name]` : the cells positionally under the named
header entry; a short row yields NaN (`Option.none`), as `pd.read_csv`
pads missing trailing fields. -/
def dfColumn (header : List String) (rows : List (List (Option String))) (name : String) :
    Option (List (Option String)) :=
  (header.findIdx? (fun c => c == name)).map
    (fun i => rows.map (fun r => (r.get? i).getD Option.none))

/-- Model of `pd.to_datetime` on one cell, with the string parser given as
a parameter `parseDT`: a NaN cell becomes NaT without error; a present
string either parses to a date-time or makes the whole conversion fail. -/
def toDatetimeCell {DT : Type} (parseDT : String → Option DT) :
    Option String → Option (Option DT)
  | Option.none => some Option.none
  | some s => (parseDT s).map some

/-- Model of `pd.to_datetime` over a whole column. -/
def toDatetimeList {DT : Type} (parseDT : String → Option DT) :
    List (Option String) → Option (List (Option DT))
  | [] => some []
  | c :: cs =>
    match toDatetimeCell parseDT c, toDatetimeList parseDT cs with
    | some d, some ds => some (d :: ds)
    | _, _ => Option.none

/-- The DataFrame returned by `load_data`: the original table with the
`tweeted_at` column replaced by its date-time conversion. -/
structure LoadedFrame (DT : Type) where
  header : List String
  rows : List (List (Option String))
  tweeted_at : List (Option DT)
deriving DecidableEq, Repr

/-- `load_data` from `data_logger.py` (lines 49-115): header check first,
then the full read, then `pd.to_datetime` on `tweeted_at`; the conversion
failure is re-raised as `ValueError` (line 112). -/
def load_data {DT : Type} (parseDT : String → Option DT) (f : FileRes) :
    Except PyErr (LoadedFrame DT) :=
  match checkRequiredHeader f with
  | .error e => .error e
  | .ok _ =>
    match f with
    | .notFound => .error (.fileNotFound "ファイルが見つかりません")
    | .emptyFile => .error (.emptyData "No columns to parse from file")
    | .content header rows =>
      match dfColumn header rows "tweeted_at" with
      | Option.none => .error (.otherError "KeyError: tweeted_at")
      | some cells =>
        match toDatetimeList parseDT cells with
        | Option.none => .error (.valueError "日時データの変換に失敗しました")
        | some dts => .ok ⟨header, rows, dts⟩

/-- `categorize_tech` from `data_logger.py` (lines 118-136): non-strings
map to "その他"; a string is "テクノロジー" exactly when some keyword of
`TECH_KEYWORDS` occurs in its lower-cased form. (The `pd.isna` test on a
string is kept from the source; it is always false there.) -/
def categorize_tech (v : PyVal) : String :=
  match v with
  | PyVal.str s =>
    if pdIsNa (PyVal.str s) then "その他"
    else if TECH_KEYWORDS.any (fun k => isSubstrOf k (pyLower s)) then "テクノロジー"
    else "その他"
  | _ => "その他"

/-! ### `utils/visualizations.py` : chart builders -/

/-- Python `isinstance(e, TypeError)`. -/
def isTypeError : PyErr → Bool
  | .typeError _ => true
  | _ => false

/-- Python `isinstance(e, ValueError)` : `pd.errors.ParserError` and
`pd.errors.EmptyDataError` are `ValueError` subclasses in pandas. -/
def isValueErrorClass : PyErr → Bool
  | .valueError _ => true
  | .parserError _ => true
  | .emptyData _ => true
  | _ => false

/-- Membership in the `pd.errors.ResampleError` except-clause of
`create_time_series_plot` (reachable only for errors not already caught
as `TypeError`/`ValueError`). -/
def isResampleError : PyErr → Bool
  | .resampleError _ => true
  | _ => false

/-- The first argument of the chart builders: a pandas DataFrame
(characterised by its column names) or something of a different type. -/
inductive PdObj where
  | dataFrame (cols : List String)
  | notDataFrame
deriving DecidableEq, Repr

/-- `validate_dataframe` from `visualizations.py` (lines 24-41). The
missing-columns message renders the Python list literal; only the message
prefix matters to the claims. -/
def validate_dataframe (df : PdObj) (required_columns : List String) : Except PyErr Unit :=
  match df with
  | .notDataFrame => .error (.typeError "入力はpandas.DataFrameである必要があります")
  | .dataFrame cols =>
    let missing := required_columns.filter (fun c => !cols.contains c)
    if missing.isEmpty then .ok ()
    else .error (.valueError ("必要なカラムが存在しません: " ++ pyJoin ", " missing))

/-- The try-block body of `create_time_series_plot` (lines 61-67):
validation, then the resample/plot library calls, which are a black box
`rest` that may return a figure or raise any exception. -/
def tsBody {α : Type} (df : PdObj) (rest : PdObj → Except PyErr α) : Except PyErr α :=
  match validate_dataframe df ["tweeted_at"] with
  | .error e => .error e
  | .ok _ => rest df

/-- `create_time_series_plot` from `visualizations.py` (lines 44-83):
`TypeError`/`ValueError` re-raised unchanged; `pd.errors.ResampleError`
and any other exception wrapped into a `ValueError` carrying the original
message. -/
def create_time_series_plot {α : Type} (df : PdObj) (rest : PdObj → Except PyErr α) :
    Except PyErr α :=
  match tsBody df rest with
  | .ok fig => .ok fig
  | .error e =>
    if isTypeError e || isValueErrorClass e then .error e
    else if isResampleError e then
      .error (.valueError ("時系列データの集計に失敗しました: " ++ e.msg))
    else .error (.valueError ("予期せぬエラーが発生しました: " ++ e.msg))

/-- The try-block body of `create_category_plot` (lines 102-108). -/
def catBody {α : Type} (df : PdObj) (rest : PdObj → Except PyErr α) : Except PyErr α :=
  match validate_dataframe df ["category"] with
  | .error e => .error e
  | .ok _ => rest df

/-- `create_category_plot` from `visualizations.py` (lines 86-118). -/
def create_category_plot {α : Type} (df : PdObj) (rest : PdObj → Except PyErr α) :
    Except PyErr α :=
  match catBody df rest with
  | .ok fig => .ok fig
  | .error e =>
    if isTypeError e || isValueErrorClass e then .error e
    else .error (.valueError ("予期せぬエラーが発生しました: " ++ e.msg))

/-! ### `utils/visualizations.py` : `get_top_words` -/

/-- The fixed supplement of platform-noise stop words added by
`stop_words.update(...)` (lines 177-218). -/
def twitter_stopwords : List String :=
  ["RT", "http", "https", "co", "jp", "com", "www", "amp", "...", "…",
   "！", "？", "笑", "w", "ｗ", "♪", "：", "；",
   "する", "いる", "なる", "ある", "れる", "の", "が", "に", "を", "は",
   "た", "です", "ます", "ない", "だ", "って", "て", "と", "も", "な"]

/-- The curated technology-vocabulary set `tech_words` (lines 221-380). -/
def tech_words : List String :=
  ["AWS", "Azure", "GCP", "Kubernetes", "Docker", "DevOps", "CI/CD",
   "マイクロサービス", "コンテナ", "サーバーレス", "インフラ", "クラウド",
   "フロントエンド", "バックエンド", "フルスタック", "データベース",
   "SQL", "NoSQL", "API", "REST", "GraphQL", "WebSocket", "HTTP", "HTTPS",
   "SSL", "TLS", "セキュリティ", "認証", "認可", "暗号化", "ハッシュ",
   "アルゴリズム", "機械学習", "ディープラーニング", "AI", "人工知能",
   "ニューラル", "データサイエンス", "ビッグデータ", "分散処理",
   "並列処理", "スケーラビリティ", "可用性", "信頼性", "モニタリング",
   "ロギング", "デバッグ", "テスト", "CI", "CD", "Git", "GitHub",
   "GitLab", "BitBucket", "アジャイル", "スクラム", "カンバン",
   "レガシー", "リファクタリング", "クリーンコード", "デザインパターン",
   "アーキテクチャ", "モノリス", "サービスメッシュ", "Istio", "Envoy",
   "Prometheus", "Grafana", "ELK", "Elasticsearch", "ブロックチェーン",
   "スマートコントラクト", "Web3", "NFT", "メタバース", "AR", "VR",
   "IoT", "5G", "6G", "エッジコンピューティング", "フォグコンピューティング",
   "マルチクラウド", "ハイブリッドクラウド", "SaaS", "PaaS", "IaaS",
   "FaaS", "BaaS", "DaaS", "XaaS", "オートメーション", "RPA",
   "ローコード", "ノーコード", "PWA", "SPA", "SSR", "CSR", "JAMstack",
   "WebAssembly", "WASM", "Rust", "Go", "Python", "JavaScript",
   "TypeScript", "React", "Vue", "Angular", "Svelte", "Next.js",
   "Nuxt.js", "Node.js", "Deno", "Django", "Flask", "FastAPI", "Spring",
   "Rails", "Laravel", "PHP", "Java", "Kotlin", "Swift", "Flutter",
   "React Native", "Xamarin", "Unity", "Unreal Engine", "Clojure",
   "Elixir", "Scala", "Common Lisp", "Erlang",
   "python", "javascript", "programming", "code", "developer", "tech",
   "cybersecurity", "security", "IT", "software", "web", "api", "data",
   "github", "docker", "cloud", "ML", "database", "dev", "coding",
   "プログラミング", "エンジニア", "コード"]

/-- The stop-word set of `get_top_words` (lines 169-218): the NLTK corpus
(`Except.error` models the `LookupError` of an unavailable corpus, caught
and replaced by the empty set) united with the fixed supplement. -/
def stopWordsOf (corpus : Except Unit (List String)) : List String :=
  (match corpus with
   | .ok ws => ws
   | .error _ => []) ++ twitter_stopwords

/-- The token stream of `get_top_words` (lines 161-167): for each non-null
entry, regex preprocessing (`_preprocess_text`, a black box `preprocess`),
MeCab segmentation (`tagger.parse`, a black box `parse`), then Python
`split()`. -/
def wordsOf (preprocess parse : String → String) (cells : List PyVal) : List String :=
  (cells.filter pdNotna).flatMap (fun c => pySplitWs (parse (preprocess (pyStr c))))

/-- The tech-only filter condition of line 385. -/
def techKeep (w : String) : Bool :=
  tech_words.contains w && decide (1 < w.length) && !(pyIsDigit w)

/-- The default-mode filter condition of lines 391-394. -/
def nonTechKeep (stop_words : List String) (w : String) : Bool :=
  !(stop_words.contains (pyLower w)) && decide (1 < w.length) && !(pyIsDigit w)
    && !(w.data.all pyIsAscii)

/-- Counter key order: first-occurrence deduplication (`seen` accumulates
the keys already emitted). -/
def firstDedupAux (seen : List String) : List String → List String
  | [] => []
  | w :: ws =>
    if seen.contains w then firstDedupAux seen ws
    else w :: firstDedupAux (w :: seen) ws

/-- The distinct tokens in first-occurrence order. -/
def firstDedup (l : List String) : List String := firstDedupAux [] l

/-- `collections.Counter(ws)` as an association list in key-insertion
order. -/
def wordCounts (ws : List String) : List (String × Nat) :=
  (firstDedup ws).map (fun w => (w, ws.count w))

/-- Descending-count comparison used by `Counter.most_common`. -/
def cntGE (a b : String × Nat) : Prop := b.2 ≤ a.2

instance : DecidableRel cntGE := fun a b => Nat.decLe b.2 a.2

instance : IsTotal (String × Nat) cntGE := ⟨fun a b => Nat.le_total b.2 a.2⟩

instance : IsTrans (String × Nat) cntGE := ⟨fun _ _ _ h1 h2 => Nat.le_trans h2 h1⟩

/-- `Counter(ws).most_common(n)` : stable sort by descending count, then
the first `n` entries (Python's `heapq.nlargest` is stable this way). -/
def mostCommon (ws : List String) (n : Nat) : List (String × Nat) :=
  (List.insertionSort cntGE (wordCounts ws)).take n

/-- The argument of `get_top_words`: a Python list, a pandas Series, or a
non-sequence scalar. -/
inductive PyObj where
  | list (cells : List PyVal)
  | series (cells : List PyVal)
  | scalar (v : PyVal)

/-- The body of `get_top_words` once `texts` is known to be a list or
Series with elements `cells` (lines 144-397): emptiness check, raw-text
blank check, tokenization, filtering, counting, `most_common(n)`. The
preprocessed `all_text` reassignment of line 159 is dead in the source
(the token loop re-preprocesses each entry) and is omitted. -/
def getTopWordsSeq (preprocess parse : String → String)
    (corpus : Except Unit (List String)) (cells : List PyVal) (n : Nat)
    (tech_only : Bool) : Except PyErr (List (String × Nat)) :=
  if cells.length = 0 then .error (.valueError "入力テキストが空です")
  else
    let all_text := pyJoin " " ((cells.filter pdNotna).map pyStr)
    if pyStrip all_text = "" then .error (.valueError "有効なテキストが存在しません")
    else
      let words := wordsOf preprocess parse cells
      let stop_words := stopWordsOf corpus
      let kept := if tech_only then words.filter techKeep
                  else words.filter (nonTechKeep stop_words)
      .ok (mostCommon kept n)

/-- `get_top_words` from `visualizations.py` (lines 121-409). All raised
errors are `TypeError`/`ValueError`, which the final except-clauses
re-raise unchanged. -/
def get_top_words (preprocess parse : String → String)
    (corpus : Except Unit (List String)) (texts : PyObj) (n : Nat)
    (tech_only : Bool) : Except PyErr (List (String × Nat)) :=
  match texts with
  | .list cells => getTopWordsSeq preprocess parse corpus cells n tech_only
  | .series cells => getTopWordsSeq preprocess parse corpus cells n tech_only
  | .scalar _ => .error (.typeError "入力はリストまたはSeriesである必要があります")

/-! ### Helper lemmas -/

theorem pyStrip_eq_empty_iff (s : String) :
    pyStrip s = "" ↔ ∀ c ∈ s.data, c.isWhitespace = true := by
  rw [pyStrip, String.ext_iff]
  show ((s.data.dropWhile Char.isWhitespace).reverse.dropWhile Char.isWhitespace).reverse
      = ("" : String).data ↔ _
  simp only [show ("" : String).data = [] from rfl, List.reverse_eq_nil_iff,
    List.dropWhile_eq_nil_iff, List.mem_reverse]
  constructor
  · intro h c hc
    rw [← List.takeWhile_append_dropWhile (p := Char.isWhitespace) (l := s.data)] at hc
    rcases List.mem_append.mp hc with h1 | h2
    · exact List.mem_takeWhile_imp h1
    · exact h c h2
  · intro h c hc
    exact h c ((List.dropWhile_sublist Char.isWhitespace).subset hc)

theorem pyJoin_space_blank_iff (l : List String) :
    pyStrip (pyJoin " " l) = "" ↔ ∀ s ∈ l, pyStrip s = "" := by
  induction l with
  | nil => simp [pyJoin, show pyStrip "" = "" from rfl]
  | cons s rest ih =>
    cases rest with
    | nil => simp [pyJoin]
    | cons t rest' =>
      rw [show pyJoin " " (s :: t :: rest') = s ++ " " ++ pyJoin " " (t :: rest') from rfl]
      rw [pyStrip_eq_empty_iff]
      simp only [String.data_append, List.mem_append, show (" " : String).data = [' '] from rfl,
        List.mem_singleton]
      constructor
      · intro h
        intro x hx
        rcases List.mem_cons.mp hx with rfl | hx'
        · exact (pyStrip_eq_empty_iff x).mpr (fun c hc => h c (Or.inl (Or.inl hc)))
        · have hj : pyStrip (pyJoin " " (t :: rest')) = "" :=
            (pyStrip_eq_empty_iff _).mpr (fun c hc => h c (Or.inr hc))
          exact ih.mp hj x hx'
      · intro h c hc
        rcases hc with (hc | rfl) | hc
        · exact (pyStrip_eq_empty_iff s).mp (h s (List.mem_cons_self s _)) c hc
        · decide
        · have hj : ∀ x ∈ t :: rest', pyStrip x = "" := fun x hx => h x (List.mem_cons_of_mem _ hx)
          exact (pyStrip_eq_empty_iff _).mp (ih.mpr hj) c hc

theorem mem_firstDedupAux (a : String) (l : List String) :
    ∀ seen, a ∈ firstDedupAux seen l ↔ a ∈ l ∧ a ∉ seen := by
  induction l with
  | nil => intro seen; simp [firstDedupAux]
  | cons w ws ih =>
    intro seen
    by_cases hw : seen.contains w = true
    · rw [firstDedupAux, if_pos hw, ih]
      have hwmem : w ∈ seen := by simpa using hw
      simp only [List.mem_cons]
      constructor
      · rintro ⟨ha, hs⟩; exact ⟨Or.inr ha, hs⟩
      · rintro ⟨ha | ha, hs⟩
        · exact absurd (ha ▸ hwmem) hs
        · exact ⟨ha, hs⟩
    · rw [firstDedupAux, if_neg hw]
      have hwmem : w ∉ seen := by simpa using hw
      simp only [List.mem_cons, ih]
      constructor
      · rintro (rfl | ⟨ha, hs⟩)
        · exact ⟨Or.inl rfl, hwmem⟩
        · exact ⟨Or.inr ha, fun hsn => hs (Or.inr hsn)⟩
      · rintro ⟨rfl | ha, hs⟩
        · exact Or.inl rfl
        · by_cases haw : a = w
          · exact Or.inl haw
          · exact Or.inr ⟨ha, by simp [haw, hs]⟩

theorem mem_firstDedup (a : String) (l : List String) : a ∈ firstDedup l ↔ a ∈ l := by
  rw [firstDedup, mem_firstDedupAux]; simp

theorem mem_wordCounts (p : String × Nat) (ws : List String) :
    p ∈ wordCounts ws ↔ p.1 ∈ ws ∧ p.2 = ws.count p.1 := by
  unfold wordCounts
  simp only [List.mem_map]
  constructor
  · rintro ⟨w, hw, rfl⟩
    exact ⟨(mem_firstDedup w ws).mp hw, rfl⟩
  · rintro ⟨h1, h2⟩
    refine ⟨p.1, (mem_firstDedup p.1 ws).mpr h1, ?_⟩
    cases p with
    | mk w c => simpa using h2.symm

theorem mostCommon_length_le (ws : List String) (n : Nat) : (mostCommon ws n).length ≤ n :=
  List.length_take_le n _

theorem mem_mostCommon_subset {p : String × Nat} {ws : List String} {n : Nat}
    (hp : p ∈ mostCommon ws n) : p ∈ wordCounts ws :=
  (List.perm_insertionSort cntGE (wordCounts ws)).subset (List.take_subset _ _ hp)

theorem mostCommon_sorted (ws : List String) (n : Nat) :
    List.Pairwise cntGE (mostCommon ws n) :=
  List.Pairwise.take (List.sorted_insertionSort cntGE (wordCounts ws))

theorem mostCommon_counts_pos {ws : List String} {n : Nat} :
    ∀ p ∈ mostCommon ws n, 1 ≤ p.2 := by
  intro p hp
  have h := (mem_wordCounts p ws).mp (mem_mostCommon_subset hp)
  rw [h.2]
  exact List.count_pos_iff.mpr h.1

theorem getTopWordsSeq_ok_iff (preprocess parse : String → String)
    (corpus : Except Unit (List String)) (cells : List PyVal) (n : Nat)
    (tech_only : Bool) (r : List (String × Nat)) :
    getTopWordsSeq preprocess parse corpus cells n tech_only = .ok r ↔
      cells.length ≠ 0 ∧
      ¬ pyStrip (pyJoin " " ((cells.filter pdNotna).map pyStr)) = "" ∧
      r = mostCommon
            (if tech_only then (wordsOf preprocess parse cells).filter techKeep
             else (wordsOf preprocess parse cells).filter
               (nonTechKeep (stopWordsOf corpus))) n := by
  unfold getTopWordsSeq
  by_cases h1 : cells.length = 0
  · simp [h1]
  · by_cases h2 : pyStrip (pyJoin " " ((cells.filter pdNotna).map pyStr)) = ""
    · simp [h1, h2]
    · simp [h1, h2, eq_comm]

theorem getTopWordsSeq_blank_error (preprocess parse : String → String)
    (corpus : Except Unit (List String)) (cells : List PyVal) (n : Nat)
    (tech_only : Bool) (hne : cells ≠ [])
    (hblank : ∀ c ∈ cells, pdNotna c = true → pyStrip (pyStr c) = "") :
    getTopWordsSeq preprocess parse corpus cells n tech_only
      = .error (.valueError "有効なテキストが存在しません") := by
  have hall : ∀ s ∈ (cells.filter pdNotna).map pyStr, pyStrip s = "" := by
    intro s hs
    simp only [List.mem_map, List.mem_filter] at hs
    obtain ⟨c, ⟨hc, hna⟩, rfl⟩ := hs
    exact hblank c hc hna
  have hb : pyStrip (pyJoin " " ((cells.filter pdNotna).map pyStr)) = "" :=
    (pyJoin_space_blank_iff _).mpr hall
  have hlen : ¬ cells.length = 0 := by simpa [List.length_eq_zero] using hne
  unfold getTopWordsSeq
  simp [hlen, hb]

theorem toDatetimeList_some_forall₂ {DT : Type} (pdt : String → Option DT) :
    ∀ (cells : List (Option String)) (dts : List (Option DT)),
      toDatetimeList pdt cells = some dts →
      List.Forall₂ (fun (cell : Option String) (dt : Option DT) =>
        match cell with
        | Option.none => dt = Option.none
        | Option.some s => (pdt s).isSome = true ∧ dt = pdt s) cells dts := by
  intro cells
  induction cells with
  | nil =>
    intro dts h
    simp only [toDatetimeList, Option.some.injEq] at h
    rw [← h]
    exact List.Forall₂.nil
  | cons c cs ih =>
    intro dts h
    unfold toDatetimeList at h
    cases hc : toDatetimeCell pdt c with
    | none => rw [hc] at h; exact absurd h (by simp)
    | some d =>
      cases hcs : toDatetimeList pdt cs with
      | none => rw [hc, hcs] at h; exact absurd h (by simp)
      | some ds =>
        rw [hc, hcs] at h
        simp only [Option.some.injEq] at h
        rw [← h]
        refine List.Forall₂.cons ?_ (ih ds hcs)
        cases c with
        | none =>
          simp only [toDatetimeCell, Option.some.injEq] at hc
          simpa using hc.symm
        | some s =>
          simp only [toDatetimeCell] at hc
          rcases Option.map_eq_some'.mp hc with ⟨x, hx, rfl⟩
          exact ⟨by simp [hx], hx.symm⟩

theorem toDatetimeList_none_of_bad {DT : Type} (pdt : String → Option DT)
    (cells : List (Option String)) (s : String)
    (hs : Option.some s ∈ cells) (hbad : pdt s = Option.none) :
    toDatetimeList pdt cells = Option.none := by
  induction cells with
  | nil => cases hs
  | cons c cs ih =>
    rcases List.mem_cons.mp hs with hcs | h
    · unfold toDatetimeList toDatetimeCell
      rw [← hcs]
      simp [hbad]
    · unfold toDatetimeList
      rw [ih h]
      cases toDatetimeCell pdt c <;> rfl

theorem nonTechKeep_eq_true_iff (stop : List String) (w : String) :
    nonTechKeep stop w = true ↔
      stop.contains (pyLower w) = false ∧ 1 < w.length ∧ pyIsDigit w = false
        ∧ ¬ (w.data.all pyIsAscii = true) := by
  simp [nonTechKeep, and_assoc]

theorem techKeep_eq_true_iff (w : String) :
    techKeep w = true ↔
      tech_words.contains w = true ∧ 1 < w.length ∧ pyIsDigit w = false := by
  simp [techKeep, and_assoc]

/-! ### Claims -/

/-- C1 counterexample: a CSV row whose timestamp field is missing (an
empty cell, NaN to pandas) loads successfully, and the returned table
carries a null (NaT) timestamp — against the claim, `load_data` neither
fails on the missing value nor guarantees non-null timestamps. -/
theorem claim_C1_counterexample :
    load_data (fun _ => some (0 : Nat))
        (FileRes.content ["tweeted_at", "screen_name", "full_text"]
          [[Option.none, some "user1", some "hello"]])
      = Except.ok ⟨["tweeted_at", "screen_name", "full_text"],
          [[Option.none, some "user1", some "hello"]], [Option.none]⟩
  ∧ Option.none ∈ ([Option.none] : List (Option Nat)) :=
  ⟨rfl, List.mem_singleton.mpr rfl⟩

/-- C1 amended: in every successfully returned table, each timestamp is
the typed date-time parsed from the corresponding present cell, while a
missing (NaN) cell passes through as a null (NaT) timestamp without
failing; and whenever any present timestamp value is unparseable, the
load fails as a whole — no partially-converted table is returned. -/
theorem claim_C1_amended {DT : Type} (parseDT : String → Option DT)
    (header : List String) (rows : List (List (Option String))) :
    (∀ fr : LoadedFrame DT, load_data parseDT (FileRes.content header rows) = .ok fr →
       ∃ cells, dfColumn header rows "tweeted_at" = some cells ∧
         List.Forall₂ (fun (cell : Option String) (dt : Option DT) =>
           match cell with
           | Option.none => dt = Option.none
           | Option.some s => (parseDT s).isSome = true ∧ dt = parseDT s)
           cells fr.tweeted_at)
  ∧ (∀ cells, dfColumn header rows "tweeted_at" = some cells →
       (∃ s, Option.some s ∈ cells ∧ parseDT s = Option.none) →
       ∃ e, load_data parseDT (FileRes.content header rows) = .error e) := by
  constructor
  · intro fr h
    unfold load_data at h
    cases hck : checkRequiredHeader (FileRes.content header rows) with
    | error e => simp only [hck] at h; exact Except.noConfusion h
    | ok u =>
      simp only [hck] at h
      cases hcol : dfColumn header rows "tweeted_at" with
      | none => simp only [hcol] at h; exact Except.noConfusion h
      | some cells =>
        simp only [hcol] at h
        cases hdt : toDatetimeList parseDT cells with
        | none => simp only [hdt] at h; exact Except.noConfusion h
        | some dts =>
          simp only [hdt, Except.ok.injEq] at h
          rw [← h]
          exact ⟨cells, rfl, toDatetimeList_some_forall₂ parseDT cells dts hdt⟩
  · rintro cells hcol ⟨s, hs, hb⟩
    have hdt := toDatetimeList_none_of_bad parseDT cells s hs hb
    unfold load_data
    cases hck : checkRequiredHeader (FileRes.content header rows) with
    | error e => exact ⟨e, rfl⟩
    | ok u =>
      simp only [hcol, hdt]
      exact ⟨.valueError "日時データの変換に失敗しました", rfl⟩

/-- C1 amended witness: the failure direction applied to a row whose
present timestamp cell is unparseable. -/
theorem claim_C1_amended_witness :
    dfColumn ["tweeted_at", "screen_name", "full_text"]
        [[some "bad", some "u", some "t"]] "tweeted_at" = some [some "bad"]
  ∧ (∃ s, Option.some s ∈ [Option.some "bad"]
       ∧ (fun _ : String => (Option.none : Option Nat)) s = Option.none)
  ∧ ∃ e, load_data (fun _ : String => (Option.none : Option Nat))
        (FileRes.content ["tweeted_at", "screen_name", "full_text"]
          [[some "bad", some "u", some "t"]]) = .error e :=
  ⟨rfl, ⟨"bad", List.mem_singleton.mpr rfl, rfl⟩,
   (claim_C1_amended (fun _ : String => (Option.none : Option Nat))
      ["tweeted_at", "screen_name", "full_text"] [[some "bad", some "u", some "t"]]).2
     [some "bad"] rfl ⟨"bad", List.mem_singleton.mpr rfl, rfl⟩⟩

/-- C2: whenever any of the required fields (tweeted_at, screen_name,
full_text) is absent from the CSV header, `load_data` fails with the
`pd.errors.ParserError` (the SchemaError kind of the spec) built from the
header check alone, and the outcome is the same for any data rows —
the condition is decided by the header-only read. -/
theorem claim_C2_missing_columns_header_only {DT : Type} (parseDT : String → Option DT)
    (header : List String) (rows rows' : List (List (Option String)))
    (hmiss : REQUIRED_COLUMNS.filter (fun c => !header.contains c) ≠ []) :
    load_data parseDT (FileRes.content header rows)
      = .error (.parserError ("必須カラムが不足しています: "
          ++ pyJoin ", " (REQUIRED_COLUMNS.filter (fun c => !header.contains c))))
  ∧ load_data parseDT (FileRes.content header rows)
      = load_data parseDT (FileRes.content header rows') := by
  have hck : ∀ rs : List (List (Option String)),
      checkRequiredHeader (FileRes.content header rs)
        = .error (.parserError ("必須カラムが不足しています: "
            ++ pyJoin ", " (REQUIRED_COLUMNS.filter (fun c => !header.contains c)))) := by
    intro rs
    unfold checkRequiredHeader readHeader
    simp only []
    rw [if_neg (by simpa using hmiss)]
  constructor
  · unfold load_data
    rw [hck rows]
  · unfold load_data
    rw [hck rows, hck rows']

/-- C2 witness: the theorem applied to a header lacking `full_text`, with
one concrete data row. -/
theorem claim_C2_witness :
    REQUIRED_COLUMNS.filter
        (fun c => !(["tweeted_at", "screen_name"] : List String).contains c) ≠ []
  ∧ load_data (fun _ => (Option.none : Option Nat))
        (FileRes.content ["tweeted_at", "screen_name"] [[some "2023-01-01", some "u"]])
      = .error (.parserError ("必須カラムが不足しています: "
          ++ pyJoin ", " (REQUIRED_COLUMNS.filter
              (fun c => !(["tweeted_at", "screen_name"] : List String).contains c)))) :=
  ⟨by decide,
   (claim_C2_missing_columns_header_only (fun _ => (Option.none : Option Nat))
      ["tweeted_at", "screen_name"] [[some "2023-01-01", some "u"]] [] (by decide)).1⟩

/-- C3: `categorize_tech` is a total function: every non-string input
(null, numbers, booleans) yields "その他" (the spec's `other`), and a
string yields "テクノロジー" (the spec's `technology`) exactly when some
keyword of the fixed set `TECH_KEYWORDS` occurs as a substring of the
lower-cased text; the output is always one of the two categories. -/
theorem claim_C3_categorize_total_keyword_iff :
    (∀ v : PyVal, (∀ s, v ≠ PyVal.str s) → categorize_tech v = "その他")
  ∧ (∀ s : String, categorize_tech (PyVal.str s) = "テクノロジー" ↔
       ∃ k ∈ TECH_KEYWORDS, isSubstrOf k (pyLower s) = true)
  ∧ (∀ v : PyVal, categorize_tech v = "テクノロジー" ∨ categorize_tech v = "その他") := by
  have hstr : ∀ s : String, categorize_tech (PyVal.str s)
      = if TECH_KEYWORDS.any (fun k => isSubstrOf k (pyLower s)) then "テクノロジー"
        else "その他" := fun s => rfl
  refine ⟨?_, ?_, ?_⟩
  · intro v h
    cases v with
    | str s => exact absurd rfl (h s)
    | none => rfl
    | int n => rfl
    | bool b => rfl
  · intro s
    rw [hstr s]
    split_ifs with hk
    · simp only [List.any_eq_true] at hk
      exact iff_of_true rfl hk
    · simp only [List.any_eq_true] at hk
      exact iff_of_false (by decide) hk
  · intro v
    cases v with
    | str s =>
      rw [hstr s]
      split_ifs
      · exact Or.inl rfl
      · exact Or.inr rfl
    | none => exact Or.inr rfl
    | int n => exact Or.inr rfl
    | bool b => exact Or.inr rfl

/-- C3 witness: the theorem applied at the concrete non-string input 123. -/
theorem claim_C3_witness :
    (∀ s, PyVal.int 123 ≠ PyVal.str s) ∧ categorize_tech (PyVal.int 123) = "その他" :=
  ⟨fun _ h => PyVal.noConfusion h,
   claim_C3_categorize_total_keyword_iff.1 (PyVal.int 123) (fun _ h => PyVal.noConfusion h)⟩

/-- C4: `get_top_words` fails with `TypeError` for every non-sequence
input, and with `ValueError` (the spec's EmptyInputError) for the empty
list or Series and for every sequence whose entries, after discarding
nulls, are all blank. -/
theorem claim_C4_input_errors (preprocess parse : String → String)
    (corpus : Except Unit (List String)) (n : Nat) (tech_only : Bool) :
    (∀ v : PyVal, get_top_words preprocess parse corpus (PyObj.scalar v) n tech_only
        = .error (.typeError "入力はリストまたはSeriesである必要があります"))
  ∧ (get_top_words preprocess parse corpus (PyObj.list []) n tech_only
        = .error (.valueError "入力テキストが空です"))
  ∧ (get_top_words preprocess parse corpus (PyObj.series []) n tech_only
        = .error (.valueError "入力テキストが空です"))
  ∧ (∀ cells : List PyVal, cells ≠ [] →
       (∀ c ∈ cells, pdNotna c = true → pyStrip (pyStr c) = "") →
       get_top_words preprocess parse corpus (PyObj.list cells) n tech_only
         = .error (.valueError "有効なテキストが存在しません"))
  ∧ (∀ cells : List PyVal, cells ≠ [] →
       (∀ c ∈ cells, pdNotna c = true → pyStrip (pyStr c) = "") →
       get_top_words preprocess parse corpus (PyObj.series cells) n tech_only
         = .error (.valueError "有効なテキストが存在しません")) := by
  refine ⟨fun v => rfl, rfl, rfl, ?_, ?_⟩
  · intro cells hne hblank
    exact getTopWordsSeq_blank_error preprocess parse corpus cells n tech_only hne hblank
  · intro cells hne hblank
    exact getTopWordsSeq_blank_error preprocess parse corpus cells n tech_only hne hblank

/-- C4 witness: the theorem applied to a sequence of one null and one
blank entry. -/
theorem claim_C4_witness :
    ([PyVal.none, PyVal.str "  "] ≠ ([] : List PyVal))
  ∧ (∀ c ∈ [PyVal.none, PyVal.str "  "], pdNotna c = true → pyStrip (pyStr c) = "")
  ∧ get_top_words id id (.ok []) (PyObj.list [PyVal.none, PyVal.str "  "]) 50 false
      = .error (.valueError "有効なテキストが存在しません") :=
  ⟨by decide, by decide,
   (claim_C4_input_errors id id (.ok []) 50 false).2.2.2.1
     [PyVal.none, PyVal.str "  "] (by decide) (by decide)⟩

/-- C6: every mapping returned by a successful `get_top_words` call has at
most `n` entries, every count is at least 1, and entries are in descending
count order (ties implementation-defined). -/
theorem claim_C6_result_shape (preprocess parse : String → String)
    (corpus : Except Unit (List String)) (texts : PyObj) (n : Nat)
    (tech_only : Bool) (r : List (String × Nat))
    (h : get_top_words preprocess parse corpus texts n tech_only = .ok r) :
    r.length ≤ n ∧ (∀ p ∈ r, 1 ≤ p.2)
      ∧ List.Pairwise (fun a b : String × Nat => b.2 ≤ a.2) r := by
  cases texts with
  | scalar v => exact absurd h (by simp [get_top_words])
  | list cells =>
    simp only [get_top_words] at h
    obtain ⟨-, -, rfl⟩ :=
      (getTopWordsSeq_ok_iff preprocess parse corpus cells n tech_only r).mp h
    exact ⟨mostCommon_length_le _ _, mostCommon_counts_pos, mostCommon_sorted _ _⟩
  | series cells =>
    simp only [get_top_words] at h
    obtain ⟨-, -, rfl⟩ :=
      (getTopWordsSeq_ok_iff preprocess parse corpus cells n tech_only r).mp h
    exact ⟨mostCommon_length_le _ _, mostCommon_counts_pos, mostCommon_sorted _ _⟩

/-- C6 witness: the theorem applied to a concrete successful call with
`n = 2` returning two entries in descending order. -/
theorem claim_C6_witness :
    get_top_words id id (.ok []) (PyObj.list [PyVal.str "データ 分析", PyVal.str "データ"]) 2 false
      = .ok [("データ", 2), ("分析", 1)]
  ∧ ([("データ", 2), ("分析", 1)] : List (String × Nat)).length ≤ 2
  ∧ (∀ p ∈ ([("データ", 2), ("分析", 1)] : List (String × Nat)), 1 ≤ p.2)
  ∧ List.Pairwise (fun a b : String × Nat => b.2 ≤ a.2) [("データ", 2), ("分析", 1)] :=
  ⟨rfl,
   (claim_C6_result_shape id id (.ok [])
      (PyObj.list [PyVal.str "データ 分析", PyVal.str "データ"]) 2 false _ rfl).1,
   (claim_C6_result_shape id id (.ok [])
      (PyObj.list [PyVal.str "データ 分析", PyVal.str "データ"]) 2 false _ rfl).2.1,
   (claim_C6_result_shape id id (.ok [])
      (PyObj.list [PyVal.str "データ 分析", PyVal.str "データ"]) 2 false _ rfl).2.2⟩

/-- C7: when the base stop-word corpus raises `LookupError`,
`get_top_words` does not fail because of it: it behaves exactly as with an
empty base stop-word set, the effective stop-word set is then exactly the
fixed Twitter supplement, and success or failure of the call never depends
on corpus availability. -/
theorem claim_C7_corpus_fallback (preprocess parse : String → String) (texts : PyObj)
    (n : Nat) (tech_only : Bool) (base : List String) :
    get_top_words preprocess parse (.error ()) texts n tech_only
      = get_top_words preprocess parse (.ok []) texts n tech_only
  ∧ stopWordsOf (.error ()) = twitter_stopwords
  ∧ (get_top_words preprocess parse (.error ()) texts n tech_only).isOk
      = (get_top_words preprocess parse (.ok base) texts n tech_only).isOk := by
  refine ⟨?_, rfl, ?_⟩
  · cases texts <;> rfl
  · cases texts with
    | scalar v => rfl
    | list cells =>
      show (getTopWordsSeq preprocess parse (.error ()) cells n tech_only).isOk
        = (getTopWordsSeq preprocess parse (.ok base) cells n tech_only).isOk
      unfold getTopWordsSeq
      by_cases h1 : cells.length = 0
      · simp [h1]
      · by_cases h2 : pyStrip (pyJoin " " ((cells.filter pdNotna).map pyStr)) = ""
        · simp [h1, h2]
        · simp [h1, h2, Except.isOk, Except.toBool]
    | series cells =>
      show (getTopWordsSeq preprocess parse (.error ()) cells n tech_only).isOk
        = (getTopWordsSeq preprocess parse (.ok base) cells n tech_only).isOk
      unfold getTopWordsSeq
      by_cases h1 : cells.length = 0
      · simp [h1]
      · by_cases h2 : pyStrip (pyJoin " " ((cells.filter pdNotna).map pyStr)) = ""
        · simp [h1, h2]
        · simp [h1, h2, Except.isOk, Except.toBool]

/-- C8: in both chart builders, a try-block failure that is neither a
`TypeError` nor of `ValueError` kind (the declared SchemaError kinds) is
re-raised as a `ValueError` whose message extends the original message,
and every try-block failure produces a failure of the builder — nothing
is swallowed. -/
theorem claim_C8_chart_error_wrapping {α : Type} (df : PdObj)
    (restTS restCat : PdObj → Except PyErr α) :
    (∀ e : PyErr, tsBody df restTS = .error e →
       isTypeError e = false → isValueErrorClass e = false →
       ∃ m, create_time_series_plot df restTS = .error (.valueError m)
         ∧ ∃ p, m = p ++ e.msg)
  ∧ (∀ e : PyErr, tsBody df restTS = .error e →
       ∃ e', create_time_series_plot df restTS = .error e')
  ∧ (∀ e : PyErr, catBody df restCat = .error e →
       isTypeError e = false → isValueErrorClass e = false →
       ∃ m, create_category_plot df restCat = .error (.valueError m)
         ∧ ∃ p, m = p ++ e.msg)
  ∧ (∀ e : PyErr, catBody df restCat = .error e →
       ∃ e', create_category_plot df restCat = .error e') := by
  refine ⟨?_, ?_, ?_, ?_⟩
  · intro e he h1 h2
    unfold create_time_series_plot
    rw [he]
    simp only [h1, h2, Bool.or_self, Bool.false_or, if_false]
    by_cases h3 : isResampleError e = true
    · rw [if_pos h3]
      exact ⟨_, rfl, "時系列データの集計に失敗しました: ", rfl⟩
    · rw [if_neg h3]
      exact ⟨_, rfl, "予期せぬエラーが発生しました: ", rfl⟩
  · intro e he
    unfold create_time_series_plot
    rw [he]
    by_cases h12 : (isTypeError e || isValueErrorClass e) = true
    · exact ⟨e, by simp [h12]⟩
    · by_cases h3 : isResampleError e = true
      · exact ⟨.valueError ("時系列データの集計に失敗しました: " ++ e.msg), by simp [h12, h3]⟩
      · exact ⟨.valueError ("予期せぬエラーが発生しました: " ++ e.msg), by simp [h12, h3]⟩
  · intro e he h1 h2
    unfold create_category_plot
    rw [he]
    simp only [h1, h2, Bool.or_self, Bool.false_or, if_false]
    exact ⟨_, rfl, "予期せぬエラーが発生しました: ", rfl⟩
  · intro e he
    unfold create_category_plot
    rw [he]
    by_cases h12 : (isTypeError e || isValueErrorClass e) = true
    · exact ⟨e, by simp [h12]⟩
    · exact ⟨.valueError ("予期せぬエラーが発生しました: " ++ e.msg), by simp [h12]⟩

/-- C8 witness: the theorem applied to a time-series body failing with an
undeclared exception kind. -/
theorem claim_C8_witness :
    tsBody (PdObj.dataFrame ["tweeted_at"])
        (fun _ => (Except.error (PyErr.otherError "boom") : Except PyErr Unit))
      = .error (.otherError "boom")
  ∧ isTypeError (.otherError "boom") = false
  ∧ isValueErrorClass (.otherError "boom") = false
  ∧ ∃ m, create_time_series_plot (PdObj.dataFrame ["tweeted_at"])
        (fun _ => (Except.error (PyErr.otherError "boom") : Except PyErr Unit))
      = .error (.valueError m) ∧ ∃ p, m = p ++ (PyErr.otherError "boom").msg :=
  ⟨rfl, rfl, rfl,
   (claim_C8_chart_error_wrapping (PdObj.dataFrame ["tweeted_at"])
      (fun _ => (Except.error (PyErr.otherError "boom") : Except PyErr Unit))
      (fun _ => (Except.error (PyErr.otherError "boom") : Except PyErr Unit))).1
     (PyErr.otherError "boom") rfl rfl rfl⟩

/-- C5: in non-tech-only mode, an entry of the returned mapping is exactly
an occurring token whose lower-cased form is not in the stop-word set,
whose length exceeds 1, that is not purely numeric and not all-ASCII,
counted with its exact number of occurrences among the tokens; every token
failing any condition is excluded, and at the counting stage every passing
token is counted. -/
theorem claim_C5_non_tech_filter (preprocess parse : String → String)
    (corpus : Except Unit (List String)) (cells : List PyVal) (n : Nat)
    (r : List (String × Nat))
    (h : get_top_words preprocess parse corpus (PyObj.list cells) n false = .ok r) :
    (∀ p ∈ r,
       (stopWordsOf corpus).contains (pyLower p.1) = false
       ∧ 1 < p.1.length
       ∧ pyIsDigit p.1 = false
       ∧ ¬ (p.1.data.all pyIsAscii = true)
       ∧ p.2 = (wordsOf preprocess parse cells).count p.1)
  ∧ (∀ (w : String) (c : Nat),
       ((stopWordsOf corpus).contains (pyLower w) = true ∨ ¬ 1 < w.length
        ∨ pyIsDigit w = true ∨ w.data.all pyIsAscii = true) → (w, c) ∉ r)
  ∧ (∀ w ∈ wordsOf preprocess parse cells,
       nonTechKeep (stopWordsOf corpus) w = true →
       (w, (wordsOf preprocess parse cells).count w)
         ∈ wordCounts
             ((wordsOf preprocess parse cells).filter (nonTechKeep (stopWordsOf corpus)))) := by
  simp only [get_top_words] at h
  obtain ⟨-, -, hr⟩ := (getTopWordsSeq_ok_iff preprocess parse corpus cells n false r).mp h
  rw [if_neg (by simp)] at hr
  have hA : ∀ p ∈ r,
      (stopWordsOf corpus).contains (pyLower p.1) = false
      ∧ 1 < p.1.length
      ∧ pyIsDigit p.1 = false
      ∧ ¬ (p.1.data.all pyIsAscii = true)
      ∧ p.2 = (wordsOf preprocess parse cells).count p.1 := by
    intro p hp
    rw [hr] at hp
    have h2 := (mem_wordCounts p _).mp (mem_mostCommon_subset hp)
    have h3 := List.mem_filter.mp h2.1
    have h4 := (nonTechKeep_eq_true_iff (stopWordsOf corpus) p.1).mp h3.2
    refine ⟨h4.1, h4.2.1, h4.2.2.1, h4.2.2.2, ?_⟩
    rw [h2.2]
    exact List.count_filter h3.2
  refine ⟨hA, ?_, ?_⟩
  · intro w c hfail hin
    have h4 := hA (w, c) hin
    rcases hfail with hf | hf | hf | hf
    · rw [h4.1] at hf; exact Bool.noConfusion hf
    · exact hf h4.2.1
    · rw [h4.2.2.1] at hf; exact Bool.noConfusion hf
    · exact h4.2.2.2.1 hf
  · intro w hw hkeep
    refine (mem_wordCounts _ _).mpr ⟨List.mem_filter.mpr ⟨hw, hkeep⟩, ?_⟩
    exact (List.count_filter hkeep).symm

/-- C5 witness: the theorem applied to a concrete run whose tokens include
a stop-worthy ASCII word, a number and a single character, all excluded,
while the passing token is counted exactly. -/
theorem claim_C5_witness :
    get_top_words id id (.ok []) (PyObj.list [PyVal.str "データ data 12 あ データ"]) 50 false
      = .ok [("データ", 2)]
  ∧ 1 < ("データ" : String).length
  ∧ ("データ", 2).2 = (wordsOf id id [PyVal.str "データ data 12 あ データ"]).count "データ" :=
  ⟨rfl,
   ((claim_C5_non_tech_filter id id (.ok []) [PyVal.str "データ data 12 あ データ"] 50
       [("データ", 2)] rfl).1 ("データ", 2) (List.mem_singleton.mpr rfl)).2.1,
   ((claim_C5_non_tech_filter id id (.ok []) [PyVal.str "データ data 12 あ データ"] 50
       [("データ", 2)] rfl).1 ("データ", 2) (List.mem_singleton.mpr rfl)).2.2.2.2⟩

/-- C9: when the sequence holds at least one non-null, non-blank entry,
`get_top_words` succeeds — the emptiness check reads the raw concatenated
text before tokenization and filtering — and if the filter then discards
every token, the result is the empty mapping, not an EmptyInputError. -/
theorem claim_C9_empty_after_filter (preprocess parse : String → String)
    (corpus : Except Unit (List String)) (cells : List PyVal) (n : Nat)
    (tech_only : Bool)
    (hne : cells ≠ [])
    (hsome : ∃ c ∈ cells, pdNotna c = true ∧ pyStrip (pyStr c) ≠ "") :
    (∃ r, get_top_words preprocess parse corpus (PyObj.list cells) n tech_only = .ok r)
  ∧ ((if tech_only then (wordsOf preprocess parse cells).filter techKeep
      else (wordsOf preprocess parse cells).filter (nonTechKeep (stopWordsOf corpus))) = [] →
     get_top_words preprocess parse corpus (PyObj.list cells) n tech_only = .ok []) := by
  have hlen : ¬ cells.length = 0 := by simpa [List.length_eq_zero] using hne
  have hnb : ¬ pyStrip (pyJoin " " ((cells.filter pdNotna).map pyStr)) = "" := by
    intro hb
    obtain ⟨c, hc, hna, hnbc⟩ := hsome
    exact hnbc ((pyJoin_space_blank_iff _).mp hb (pyStr c)
      (List.mem_map_of_mem pyStr (List.mem_filter.mpr ⟨hc, hna⟩)))
  constructor
  · exact ⟨_, (getTopWordsSeq_ok_iff preprocess parse corpus cells n tech_only _).mpr
      ⟨hlen, hnb, rfl⟩⟩
  · intro hempty
    exact (getTopWordsSeq_ok_iff preprocess parse corpus cells n tech_only []).mpr
      ⟨hlen, hnb, by
        rw [hempty]
        simp [mostCommon, wordCounts, firstDedup, firstDedupAux, List.insertionSort]⟩

/-- C9 witness: the theorem applied to a single ASCII text: the raw text
is non-blank so the call succeeds, yet every token is all-ASCII, so in
non-tech mode the result is the empty mapping. -/
theorem claim_C9_witness :
    ([PyVal.str "hello world"] ≠ ([] : List PyVal))
  ∧ (∃ c ∈ [PyVal.str "hello world"], pdNotna c = true ∧ pyStrip (pyStr c) ≠ "")
  ∧ get_top_words id id (.ok []) (PyObj.list [PyVal.str "hello world"]) 50 false = .ok [] :=
  ⟨by decide, by decide,
   (claim_C9_empty_after_filter id id (.ok []) [PyVal.str "hello world"] 50 false
      (by decide) (by decide)).2 (by decide)⟩

/-- C10: in tech-only mode a token is kept only if it is an exact,
case-sensitive member of `tech_words` — "PYTHON" is not a member although
"Python" and "python" are — and the stop-word corpus is never consulted:
the result is identical for any two corpus states. -/
theorem claim_C10_tech_only_exact (preprocess parse : String → String)
    (c₁ c₂ : Except Unit (List String)) (texts : PyObj) (n : Nat) :
    get_top_words preprocess parse c₁ texts n true
      = get_top_words preprocess parse c₂ texts n true
  ∧ (∀ r, get_top_words preprocess parse c₁ texts n true = .ok r →
       ∀ p ∈ r, tech_words.contains p.1 = true ∧ 1 < p.1.length ∧ pyIsDigit p.1 = false)
  ∧ tech_words.contains "PYTHON" = false
  ∧ tech_words.contains "Python" = true
  ∧ tech_words.contains "python" = true := by
  refine ⟨by cases texts <;> rfl, ?_, by decide, by decide, by decide⟩
  intro r h p hp
  cases texts with
  | scalar v => exact absurd h (by simp [get_top_words])
  | list cells =>
    simp only [get_top_words] at h
    obtain ⟨-, -, rfl⟩ := (getTopWordsSeq_ok_iff preprocess parse c₁ cells n true r).mp h
    rw [if_pos rfl] at hp
    have h2 := (mem_wordCounts p _).mp (mem_mostCommon_subset hp)
    exact (techKeep_eq_true_iff p.1).mp (List.mem_filter.mp h2.1).2
  | series cells =>
    simp only [get_top_words] at h
    obtain ⟨-, -, rfl⟩ := (getTopWordsSeq_ok_iff preprocess parse c₁ cells n true r).mp h
    rw [if_pos rfl] at hp
    have h2 := (mem_wordCounts p _).mp (mem_mostCommon_subset hp)
    exact (techKeep_eq_true_iff p.1).mp (List.mem_filter.mp h2.1).2

/-- C10 witness: the theorem applied to a concrete tech-only run keeping
the exact-cased token "Python". -/
theorem claim_C10_witness :
    get_top_words id id (.ok []) (PyObj.list [PyVal.str "Python PYTHON Python"]) 5 true
      = .ok [("Python", 2)]
  ∧ tech_words.contains ("Python", 2).1 = true
  ∧ 1 < ("Python", 2).1.length
  ∧ pyIsDigit ("Python", 2).1 = false :=
  ⟨rfl,
   ((claim_C10_tech_only_exact id id (.ok []) (.ok [])
       (PyObj.list [PyVal.str "Python PYTHON Python"]) 5).2.1 [("Python", 2)] rfl
     ("Python", 2) (List.mem_singleton.mpr rfl)).1,
   ((claim_C10_tech_only_exact id id (.ok []) (.ok [])
       (PyObj.list [PyVal.str "Python PYTHON Python"]) 5).2.1 [("Python", 2)] rfl
     ("Python", 2) (List.mem_singleton.mpr rfl)).2.1,
   ((claim_C10_tech_only_exact id id (.ok []) (.ok [])
       (PyObj.list [PyVal.str "Python PYTHON Python"]) 5).2.1 [("Python", 2)] rfl
     ("Python", 2) (List.mem_singleton.mpr rfl)).2.2⟩

end TwitterBookmarkAnalytics
